import Mathlib

/-!
# Verification of the invoice extraction / KDV reconciliation / export pipeline

Shallow embedding of the core of the `ai-fatura-tarayici` backend:

* `backend/app/services/kdv_calculator.py`   — `KDVCalculator` (VAT forward /
  backward computation, validation, nearest-valid-rate resolution);
* `backend/app/services/ai_extraction_service.py` — `AIExtractionService`
  (`extract_invoice_data`, `_validate_and_recalculate`);
* `backend/app/api/v1/invoices.py`           — `update_invoice`,
  `export_to_parasut` endpoints;
* `backend/app/services/parasut_integration.py` — `ParasutClient.export_invoice`.

Monetary amounts are Python `Decimal` values; we model them as exact rationals
(`ℚ`).  Python's `Decimal` division carries 28 significant digits before the
subsequent `quantize` to 2 decimal places; we model the division as exact
rational division, which agrees with the source wherever the 2-decimal-place
quantization is what is observed (all inputs relevant to the claims).
-/

namespace FaturaTarayici

/-- `Decimal.quantize(Decimal("0.01"), rounding=ROUND_HALF_UP)`:
round to 2 decimal places, ties away from zero (Python's `ROUND_HALF_UP`
rounds halves away from zero, not towards `+∞`). -/
def roundHalfUp2 (x : ℚ) : ℚ :=
  if 0 ≤ x then ((Int.floor (x * 100 + 1 / 2) : ℤ) : ℚ) / 100
  else -(((Int.floor ((-x) * 100 + 1 / 2) : ℤ) : ℚ) / 100)

/-- Python's built-in `abs` on `Decimal` values (kept as an `if` so that
concrete instances reduce definitionally; equal to Mathlib's `|·|` by
`absQ_eq_abs` below). -/
def absQ (x : ℚ) : ℚ := if x < 0 then -x else x

namespace KDVCalculator

/-- Corrected values attached to an invalid `KDVResult`
(the `suggested_values` dict literal at `kdv_calculator.py:206-211`). -/
structure SuggestedValues where
  kdv_amount : ℚ
  total : ℚ
  subtotal : ℚ
  kdv_rate : ℚ
  deriving DecidableEq, Repr

/-- `KDVResult` pydantic model (`kdv_calculator.py:9-19`). -/
structure KDVResult where
  is_valid : Bool
  subtotal : ℚ
  kdv_amount : ℚ
  total : ℚ
  kdv_rate : ℚ
  suggested_values : Option SuggestedValues := none
  error_message : Option String := none
  deriving DecidableEq, Repr

/-- `KDV_RATES` class attribute (`kdv_calculator.py:24-44`): rate schedule with
example product categories; dict insertion order is `1, 10, 20`. -/
def KDV_RATES : List (ℚ × List String) :=
  [(1, ["Gazete, dergi, kitap ve benzeri yayınlar",
        "Eğitim ve öğretim hizmetleri"]),
   (10, ["Konut kiraları", "Gıda maddeleri (temel)",
         "İlaç ve medikal malzemeler", "Kitap, gazete, dergi",
         "Konut teslimleri"]),
   (20, ["Genel mal ve hizmetler", "Elektronik eşya", "Giyim", "Mobilya",
         "Danışmanlık hizmetleri", "Yazılım hizmetleri"])]

/-- `TOLERANCE` class attribute: ±0.01 TRY (`kdv_calculator.py:46`). -/
def TOLERANCE : ℚ := 1 / 100

/-- `get_valid_rates` (`kdv_calculator.py:48-51`): the schedule keys in order. -/
def get_valid_rates : List ℚ := KDV_RATES.map (fun p => p.1)

/-- The method names actually defined on the Python class `KDVCalculator`
(`kdv_calculator.py:22-300`).  Two call sites elsewhere in the repository
invoke a method named `calculate_kdv`, which is **not** in this list; in
Python that attribute lookup raises `AttributeError`. -/
def methods : List String :=
  ["get_valid_rates", "get_categories_for_rate", "calculate", "validate",
   "_find_closest_valid_rate", "calculate_from_total"]

/-- Attribute lookup on `KDVCalculator`: does the named method exist? -/
def hasMethod (m : String) : Bool := methods.contains m

/-- `calculate` (`kdv_calculator.py:58-109`): forward VAT computation.
`kdv = round_half_up_2(subtotal * rate / 100)`, `total = subtotal + kdv`;
negative `subtotal` yields an invalid result; a rate outside the schedule is
merely logged and does not invalidate the result. -/
def calculate (subtotal rate : ℚ) : KDVResult :=
  if subtotal < 0 then
    { is_valid := false, subtotal := subtotal, kdv_amount := 0,
      total := subtotal, kdv_rate := rate,
      error_message := some "KDV hariç tutar negatif olamaz" }
  else
    let kdv_amount := roundHalfUp2 (subtotal * rate / 100)
    { is_valid := true, subtotal := subtotal, kdv_amount := kdv_amount,
      total := subtotal + kdv_amount, kdv_rate := rate }

/-- The accumulating loop of `_find_closest_valid_rate`
(`kdv_calculator.py:242-246`): strict `<` means an equidistant later entry
never displaces the current one. -/
def closestLoop (x : ℚ) : List ℚ → ℚ → ℚ → ℚ
  | [], closest, _ => closest
  | r :: rs, closest, minDiff =>
      if absQ (x - r) < minDiff then closestLoop x rs r (absQ (x - r))
      else closestLoop x rs closest minDiff

/-- `_find_closest_valid_rate` (`kdv_calculator.py:234-248`): the schedule
entry nearest to the computed rate, initialised with the first entry.
(The Python name begins with an underscore, which Lean does not allow in a
declaration name.) -/
def find_closest_valid_rate (calculated_rate : ℚ) : ℚ :=
  match get_valid_rates with
  | [] => 0
  | r :: rs => closestLoop calculated_rate rs r (absQ (calculated_rate - r))

/-- The effective rate used by `validate` (`kdv_calculator.py:146-157`):
an omitted rate is inferred from `(kdv_amount / subtotal) * 100`, quantized
to 2 places, then snapped to the schedule; with `subtotal = 0` the default
rate 20 is used. -/
def effective_rate (subtotal kdv_amount : ℚ) (rate? : Option ℚ) : ℚ :=
  match rate? with
  | some r => r
  | none =>
      if 0 < subtotal then
        find_closest_valid_rate (roundHalfUp2 (kdv_amount / subtotal * 100))
      else 20

/-- `validate` (`kdv_calculator.py:111-232`): checks
`total ≈ subtotal + kdv_amount`, `kdv_amount ≈ expected_kdv` and
`total ≈ expected_total` each within `TOLERANCE`; on failure returns
`suggested_values` holding the engine's own recomputation.
(Interpolated amounts in the Turkish error messages are elided.) -/
def validate (subtotal kdv_amount total : ℚ) (rate? : Option ℚ) : KDVResult :=
  if subtotal < 0 ∨ kdv_amount < 0 ∨ total < 0 then
    { is_valid := false, subtotal := subtotal, kdv_amount := kdv_amount,
      total := total, kdv_rate := (rate?.getD 0),
      error_message := some "Tutarlar negatif olamaz" }
  else
    let rate := effective_rate subtotal kdv_amount rate?
    let expected_kdv := roundHalfUp2 (subtotal * rate / 100)
    let expected_total := subtotal + expected_kdv
    let calculated_total := subtotal + kdv_amount
    let total_diff := absQ (total - calculated_total)
    let kdv_diff := absQ (kdv_amount - expected_kdv)
    let expected_total_diff := absQ (total - expected_total)
    if total_diff ≤ TOLERANCE ∧ kdv_diff ≤ TOLERANCE ∧
        expected_total_diff ≤ TOLERANCE then
      { is_valid := true, subtotal := subtotal, kdv_amount := kdv_amount,
        total := total, kdv_rate := rate }
    else
      { is_valid := false, subtotal := subtotal, kdv_amount := kdv_amount,
        total := total, kdv_rate := rate,
        suggested_values := some
          { kdv_amount := expected_kdv, total := expected_total,
            subtotal := subtotal, kdv_rate := rate },
        error_message := some "KDV uyuşmazlığı" }

/-- `calculate_from_total` (`kdv_calculator.py:250-300`): backward VAT
computation; `subtotal = round_half_up_2(total / (1 + rate/100))`,
`kdv_amount = total - subtotal`. -/
def calculate_from_total (total rate : ℚ) : KDVResult :=
  if total < 0 then
    { is_valid := false, subtotal := 0, kdv_amount := 0, total := total,
      kdv_rate := rate, error_message := some "Toplam tutar negatif olamaz" }
  else
    let divisor := 1 + rate / 100
    let subtotal := roundHalfUp2 (total / divisor)
    { is_valid := true, subtotal := subtotal,
      kdv_amount := total - subtotal, total := total, kdv_rate := rate }

end KDVCalculator

namespace AIExtraction

/-- `InvoiceLineItem` pydantic model (`ai_extraction_service.py:17-29`);
`total` is the stated line total, VAT excluded. -/
structure InvoiceLineItem where
  description : String
  quantity : ℚ
  unit_price : ℚ
  kdv_rate : ℚ
  total : ℚ
  deriving DecidableEq, Repr

/-- `ExtractedInvoiceData` pydantic model (`ai_extraction_service.py:32-70`).
The calendar date is kept as the raw string the model produced. -/
structure ExtractedInvoiceData where
  invoice_number : Option String := none
  invoice_date : Option String := none
  supplier_name : Option String := none
  supplier_tax_number : Option String := none
  supplier_address : Option String := none
  customer_name : Option String := none
  customer_tax_number : Option String := none
  customer_address : Option String := none
  currency : String := "TRY"
  subtotal : ℚ := 0
  total_kdv : ℚ := 0
  total_amount : ℚ := 0
  line_items : List InvoiceLineItem := []
  payment_terms : Option String := none
  notes : Option String := none
  deriving DecidableEq, Repr

open KDVCalculator

/-- The `try` block of the per-item loop of `_validate_and_recalculate`
(`ai_extraction_service.py:248-260`).  The call
`self._kdv_calculator.calculate_kdv(line_subtotal, item.kdv_rate)` looks up a
method that `KDVCalculator` does not define, so it raises `AttributeError`
**before** the stated-total comparison; the surrounding `except` logs and
moves on, leaving both the item and the running sums untouched.  The branch
under `hasMethod "calculate_kdv" = true` is dead code here; it carries the
evident intended semantics (`calculate` and its `kdv_amount`) so that the
expression is well typed.  Returns the (possibly corrected) item and, when
the body completed, the contributions to the two accumulators. -/
def recalcLine (item : InvoiceLineItem) : InvoiceLineItem × Option (ℚ × ℚ) :=
  let line_subtotal := item.quantity * item.unit_price
  match (if hasMethod "calculate_kdv" then
           some (calculate line_subtotal item.kdv_rate).kdv_amount
         else none) with
  | none => (item, none)
  | some line_kdv =>
      let item' :=
        if absQ (item.total - line_subtotal) > 1 / 100 then
          { item with total := line_subtotal }
        else item
      (item', some (line_subtotal, line_kdv))

/-- `_validate_and_recalculate` (`ai_extraction_service.py:237-277`):
with no line items the record is returned unchanged; otherwise each line is
reprocessed by `recalcLine`, the recomputed sums are accumulated, and each
document-level total differing from its recomputed sum by more than 1.00 is
overwritten with that sum. -/
def validate_and_recalculate (data : ExtractedInvoiceData) : ExtractedInvoiceData :=
  if data.line_items.isEmpty then data
  else
    let step := fun (acc : List InvoiceLineItem × ℚ × ℚ) (item : InvoiceLineItem) =>
      match recalcLine item with
      | (item', none) => (acc.1 ++ [item'], acc.2.1, acc.2.2)
      | (item', some contrib) =>
          (acc.1 ++ [item'], acc.2.1 + contrib.1, acc.2.2 + contrib.2)
    let folded := data.line_items.foldl step ([], 0, 0)
    let calculated_subtotal := folded.2.1
    let calculated_total_kdv := folded.2.2
    let calculated_total := calculated_subtotal + calculated_total_kdv
    let d1 := { data with line_items := folded.1 }
    let d2 :=
      if absQ (d1.subtotal - calculated_subtotal) > 1 then
        { d1 with subtotal := calculated_subtotal }
      else d1
    let d3 :=
      if absQ (d2.total_kdv - calculated_total_kdv) > 1 then
        { d2 with total_kdv := calculated_total_kdv }
      else d2
    if absQ (d3.total_amount - calculated_total) > 1 then
      { d3 with total_amount := calculated_total }
    else d3

/-- The guard `if not ocr_text or not ocr_text.strip()`
(`ai_extraction_service.py:182`): true exactly when the text is empty or
strips to empty, i.e. consists only of whitespace characters. -/
def isBlank (s : String) : Bool := s.toList.all (fun c => c.isWhitespace)

/-- Failure modes of `extract_invoice_data` (raised as `ValueError` in the
source, distinguished here by their message). -/
inductive ExtractError where
  | emptyInput
  | retriesExhausted
  deriving DecidableEq, Repr

/-- The attempt loop of `extract_invoice_data`
(`ai_extraction_service.py:190-233`).  `llm attempt` is the outcome of the
language-model call plus JSON parse plus pydantic validation at the given
attempt index (`none` = parse or validation failure).  Alongside the result
we count the language-model calls issued. -/
def runAttempts (llm : Nat → Option ExtractedInvoiceData) :
    Nat → Nat → Nat → Except ExtractError ExtractedInvoiceData × Nat
  | attempt, remaining, calls =>
    match llm attempt with
    | some parsed => (Except.ok (validate_and_recalculate parsed), calls + 1)
    | none =>
        match remaining with
        | 0 => (Except.error ExtractError.retriesExhausted, calls + 1)
        | n + 1 => runAttempts llm (attempt + 1) n (calls + 1)

/-- `extract_invoice_data` (`ai_extraction_service.py:176-235`): blank input
is rejected up front — before the system/user prompts are built and before
the attempt loop runs — and otherwise up to `max_retries + 1` language-model
attempts are made, the first structurally valid one being reconciled by
`_validate_and_recalculate`. -/
def extract_invoice_data (ocr_text : String)
    (llm : Nat → Option ExtractedInvoiceData) (max_retries : Nat := 2) :
    Except ExtractError ExtractedInvoiceData × Nat :=
  if isBlank ocr_text then (Except.error ExtractError.emptyInput, 0)
  else runAttempts llm 0 max_retries 0

end AIExtraction

namespace Api

/-- `InvoiceStatus` enum (`models/invoice.py:24-29`). -/
inductive InvoiceStatus where
  | uploaded
  | processing
  | completed
  | failed
  | exported
  deriving DecidableEq, Repr

/-- The `extracted_data` JSONB payload as far as the endpoints inspect it,
and likewise the `extracted_data` dict of an `InvoiceUpdate` request
(`models/invoice.py:206-215`, `api/v1/invoices.py:234-255`).  A `none` field
models an absent key.  (Python's `dict.update` also copies keys explicitly
set to `None`; the claims under study only exercise absent-vs-present.) -/
structure ExtractedPatch where
  subtotal : Option ℚ := none
  kdv_rate : Option ℚ := none
  kdv_amount : Option ℚ := none
  total : Option ℚ := none
  notes : Option String := none
  deriving DecidableEq, Repr

/-- Python dict truthiness of `extracted.get(key)` for a numeric key:
truthy iff the key is present with a non-zero value. -/
def truthyQ : Option ℚ → Bool
  | none => false
  | some v => decide (v ≠ 0)

/-- `current_extracted.update(extracted)` (`api/v1/invoices.py:253`):
keys present in the patch overwrite, absent keys keep the current value. -/
def dictUpdate (current patch : ExtractedPatch) : ExtractedPatch where
  subtotal := patch.subtotal.orElse fun _ => current.subtotal
  kdv_rate := patch.kdv_rate.orElse fun _ => current.kdv_rate
  kdv_amount := patch.kdv_amount.orElse fun _ => current.kdv_amount
  total := patch.total.orElse fun _ => current.total
  notes := patch.notes.orElse fun _ => current.notes

/-- `Invoice` ORM entity, restricted to the fields the claims concern
(`models/invoice.py:78-127`).  `is_manually_corrected` is set by
`update_invoice` as a plain Python attribute (it is not a mapped column);
timestamps are abstracted to naturals. -/
structure Invoice where
  status : InvoiceStatus
  extracted_data : Option ExtractedPatch := none
  is_manually_corrected : Bool := false
  parasut_invoice_id : Option String := none
  exported_at : Option Nat := none
  updated_at : Nat := 0
  deriving DecidableEq, Repr

/-- Failure modes of the `update_invoice` endpoint relevant here:
the HTTP 400 guard for exported invoices (`api/v1/invoices.py:226-230`) and
the generic handler (`api/v1/invoices.py:270-276`) that rolls the transaction
back and answers HTTP 500. -/
inductive UpdateError where
  | exportedLocked
  | internalError
  deriving DecidableEq, Repr

/-- `update_invoice` (`api/v1/invoices.py:203-266`) for a request whose
`extracted_data` is present and truthy (a non-empty correction dict), after
the invoice has been fetched and found to belong to the user.  Exported
invoices are rejected up front.  When the correction carries both a truthy
`subtotal` and a truthy `kdv_rate`, the code calls
`calculator.calculate_kdv(...)` (`api/v1/invoices.py:239`) — a method
`KDVCalculator` does not define — so `AttributeError` propagates to the
generic handler, which rolls back and returns HTTP 500 with the stored
invoice unchanged.  The branch under `hasMethod "calculate_kdv" = true` is
dead; it carries the evident intended semantics of lines 244-250.  Otherwise
the correction is merged into the stored `extracted_data` and the manual
correction flag is set. -/
def update_invoice (inv : Invoice) (extracted : ExtractedPatch) (now : Nat) :
    Except UpdateError Invoice :=
  if inv.status = InvoiceStatus.exported then
    Except.error UpdateError.exportedLocked
  else
    if truthyQ extracted.subtotal && truthyQ extracted.kdv_rate then
      match (if KDVCalculator.hasMethod "calculate_kdv" then
               some (KDVCalculator.calculate (extracted.subtotal.getD 0)
                      (extracted.kdv_rate.getD 0))
             else none) with
      | none => Except.error UpdateError.internalError
      | some kdv_result =>
          let extracted' :=
            if !kdv_result.is_valid then
              match kdv_result.suggested_values with
              | some sv =>
                  { extracted with kdv_amount := some sv.kdv_amount,
                                   total := some sv.total }
              | none => extracted
            else extracted
          Except.ok { inv with
            extracted_data :=
              some (dictUpdate (inv.extracted_data.getD {}) extracted'),
            is_manually_corrected := true,
            updated_at := now }
    else
      Except.ok { inv with
        extracted_data :=
          some (dictUpdate (inv.extracted_data.getD {}) extracted),
        is_manually_corrected := true,
        updated_at := now }

/-- Failure modes of the `export_to_parasut` endpoint
(`api/v1/invoices.py:323-389`). -/
inductive ExportError where
  | notCompleted
  | alreadyExported
  | missingData
  | ledgerError
  deriving DecidableEq, Repr

/-- The dict returned by `ParasutClient.export_invoice` on success
(`parasut_integration.py:324-329`), restricted to its string-valued entries;
the boolean `"success"` and the nested `"data"` payload are elided.  The
ledger-assigned id (`result["data"]["id"]` of the wire response, possibly
absent) is stored under the key `"parasut_invoice_id"`. -/
def export_invoice_response (ledger_assigned_id : Option String) :
    List (String × Option String) :=
  [("parasut_invoice_id", ledger_assigned_id),
   ("message", some "Invoice successfully exported to Parasüt")]

/-- Python `dict.get(key)`: the stored value, or `None` when absent. -/
def dictGet (d : List (String × Option String)) (key : String) : Option String :=
  match d.find? (fun p => p.1 == key) with
  | some p => p.2
  | none => none

/-- `export_to_parasut` (`api/v1/invoices.py:323-389`) after the invoice has
been fetched: only `completed` invoices with extracted data proceed
(the `exported` recheck at lines 351-355 is unreachable but kept);
`wire` is the outcome of `ParasutClient.export_invoice`'s POST — an error
models `ParasutAPIError`, success carries the ledger-assigned id.  On
success the endpoint stores `result.get("parasut_id")` — a key the client's
response dict does not contain — into `parasut_invoice_id`, sets the status
to `exported` and stamps `exported_at`. -/
def export_to_parasut (inv : Invoice) (wire : Except Unit (Option String))
    (now : Nat) : Except ExportError Invoice :=
  if inv.status ≠ InvoiceStatus.completed then
    Except.error ExportError.notCompleted
  else if inv.status = InvoiceStatus.exported then
    Except.error ExportError.alreadyExported
  else
    match inv.extracted_data with
    | none => Except.error ExportError.missingData
    | some _ =>
        match wire with
        | Except.error _ => Except.error ExportError.ledgerError
        | Except.ok ledger_assigned_id =>
            let result := export_invoice_response ledger_assigned_id
            Except.ok { inv with
              status := InvoiceStatus.exported,
              parasut_invoice_id := dictGet result "parasut_id",
              exported_at := some now,
              updated_at := now }

end Api

/-! ## Lemmas and theorems -/

open KDVCalculator AIExtraction Api

/-- Rounding to 2 decimal places moves a value by at most half a cent. -/
lemma abs_roundHalfUp2_sub_le (x : ℚ) : |roundHalfUp2 x - x| ≤ 1 / 200 := by
  have key : ∀ y : ℚ, |((Int.floor (y * 100 + 1 / 2) : ℤ) : ℚ) / 100 - y| ≤ 1 / 200 := by
    intro y
    have h1 : ((Int.floor (y * 100 + 1 / 2) : ℤ) : ℚ) ≤ y * 100 + 1 / 2 :=
      Int.floor_le _
    have h2 : y * 100 + 1 / 2 - 1 < ((Int.floor (y * 100 + 1 / 2) : ℤ) : ℚ) :=
      Int.sub_one_lt_floor _
    rw [abs_le]
    constructor <;> [nlinarith; nlinarith]
  unfold roundHalfUp2
  split_ifs with h
  · exact key x
  · calc |-(((Int.floor ((-x) * 100 + 1 / 2) : ℤ) : ℚ) / 100) - x|
        = |((Int.floor ((-x) * 100 + 1 / 2) : ℤ) : ℚ) / 100 - (-x)| := by
          rw [← abs_neg]; ring_nf
      _ ≤ 1 / 200 := key (-x)

/-- Rounding preserves non-negativity. -/
lemma roundHalfUp2_nonneg {x : ℚ} (hx : 0 ≤ x) : 0 ≤ roundHalfUp2 x := by
  unfold roundHalfUp2
  rw [if_pos hx]
  have h0 : (0 : ℚ) ≤ ((Int.floor (x * 100 + 1 / 2) : ℤ) : ℚ) := by
    have hz : (0 : ℤ) ≤ Int.floor (x * 100 + 1 / 2) := by
      apply Int.floor_nonneg.mpr
      nlinarith
    exact_mod_cast hz
  positivity

/-- The conditional model of Python `abs` coincides with Mathlib's. -/
lemma absQ_eq_abs (x : ℚ) : absQ x = |x| := by
  unfold absQ
  rcases lt_or_ge x 0 with h | h
  · rw [if_pos h, abs_of_neg h]
  · rw [if_neg (not_lt.mpr h), abs_of_nonneg h]

lemma get_valid_rates_eq : get_valid_rates = [1, 10, 20] := by
  simp [get_valid_rates, KDV_RATES]

/-- Closed form of the nearest-rate loop over the concrete schedule. -/
lemma find_closest_eq (x : ℚ) :
    find_closest_valid_rate x =
      if |x - 10| < |x - 1| then
        (if |x - 20| < |x - 10| then 20 else 10)
      else
        (if |x - 20| < |x - 1| then 20 else 1) := by
  simp only [find_closest_valid_rate, get_valid_rates_eq, closestLoop, absQ_eq_abs]

/-- The nearest-rate resolution always lands in the schedule. -/
lemma find_closest_mem (x : ℚ) : find_closest_valid_rate x ∈ get_valid_rates := by
  rw [find_closest_eq, get_valid_rates_eq]
  split_ifs <;> simp

/-- The nearest-rate resolution minimises the absolute distance. -/
lemma find_closest_min (x r : ℚ) (hr : r ∈ get_valid_rates) :
    |x - find_closest_valid_rate x| ≤ |x - r| := by
  rw [get_valid_rates_eq] at hr
  simp only [List.mem_cons, List.not_mem_nil, or_false] at hr
  rw [find_closest_eq]
  rcases abs_cases (x - 1) with ⟨e1, s1⟩ | ⟨e1, s1⟩ <;>
    rcases abs_cases (x - 10) with ⟨e2, s2⟩ | ⟨e2, s2⟩ <;>
    rcases abs_cases (x - 20) with ⟨e3, s3⟩ | ⟨e3, s3⟩ <;>
    rcases hr with rfl | rfl | rfl <;>
    simp only [e1, e2, e3] <;>
    split_ifs <;>
    simp only [e1, e2, e3] at * <;>
    linarith

/-- On an exact tie the strict-inequality update keeps the earlier, hence
smaller, schedule entry. -/
lemma find_closest_tie (x r : ℚ) (hr : r ∈ get_valid_rates)
    (h : |x - r| = |x - find_closest_valid_rate x|) :
    find_closest_valid_rate x ≤ r := by
  rw [get_valid_rates_eq] at hr
  simp only [List.mem_cons, List.not_mem_nil, or_false] at hr
  rw [find_closest_eq] at h ⊢
  rcases abs_cases (x - 1) with ⟨e1, s1⟩ | ⟨e1, s1⟩ <;>
    rcases abs_cases (x - 10) with ⟨e2, s2⟩ | ⟨e2, s2⟩ <;>
    rcases abs_cases (x - 20) with ⟨e3, s3⟩ | ⟨e3, s3⟩ <;>
    rcases hr with rfl | rfl | rfl <;>
    split_ifs at h ⊢ <;>
    simp only [e1, e2, e3] at * <;>
    linarith

/-- C7: nearest-valid-rate resolution (`_find_closest_valid_rate`, used by
`validate` when the rate is omitted and `subtotal > 0`) is a deterministic
function whose value is always a schedule entry of minimal absolute distance
to the input rate, and an equidistant tie resolves to the smaller rate. -/
theorem find_closest_valid_rate_spec (x : ℚ) :
    find_closest_valid_rate x ∈ get_valid_rates ∧
    (∀ r ∈ get_valid_rates, |x - find_closest_valid_rate x| ≤ |x - r|) ∧
    (∀ r ∈ get_valid_rates, |x - r| = |x - find_closest_valid_rate x| →
      find_closest_valid_rate x ≤ r) :=
  ⟨find_closest_mem x, fun r hr => find_closest_min x r hr,
   fun r hr h => find_closest_tie x r hr h⟩

/-- Witness for C7 at the exact tie point `x = 5.5` (equidistant from the
schedule entries 1 and 10): the resolution picks 1, the smaller rate. -/
theorem find_closest_valid_rate_spec_witness :
    find_closest_valid_rate (11 / 2) ∈ get_valid_rates ∧
    ((10 : ℚ) ∈ get_valid_rates ∧
      |11 / 2 - find_closest_valid_rate (11 / 2)| ≤ |(11 / 2 : ℚ) - 10|) ∧
    (|(11 / 2 : ℚ) - 10| = |11 / 2 - find_closest_valid_rate (11 / 2)| ∧
      find_closest_valid_rate (11 / 2) ≤ 10) := by
  have h := find_closest_valid_rate_spec (11 / 2)
  have hm : (10 : ℚ) ∈ get_valid_rates := by decide
  have hv : find_closest_valid_rate (11 / 2) = 1 := by
    rw [find_closest_eq,
      abs_of_nonpos (by norm_num : (11 / 2 : ℚ) - 10 ≤ 0),
      abs_of_nonneg (by norm_num : (0 : ℚ) ≤ 11 / 2 - 1),
      abs_of_nonpos (by norm_num : (11 / 2 : ℚ) - 20 ≤ 0)]
    norm_num
  have htie : |(11 / 2 : ℚ) - 10| = |11 / 2 - find_closest_valid_rate (11 / 2)| := by
    rw [hv, abs_of_nonpos (by norm_num), abs_of_nonneg (by norm_num)]
    norm_num
  exact ⟨h.1, ⟨hm, h.2.1 10 hm⟩, ⟨htie, h.2.2 10 hm htie⟩⟩

/-- `KDVCalculator` defines no method named `calculate_kdv`. -/
lemma hasMethod_calculate_kdv : hasMethod "calculate_kdv" = false := by
  simp [hasMethod, methods]

/-- Every per-item iteration of `_validate_and_recalculate` aborts with
`AttributeError` at the `calculate_kdv` call, before the stated-total
comparison: the item is returned unchanged and contributes nothing to the
accumulated sums. -/
lemma recalcLine_eq (item : InvoiceLineItem) : recalcLine item = (item, none) := by
  simp [recalcLine, hasMethod_calculate_kdv]

/-- C10: when `line_items` is empty, `_validate_and_recalculate` returns the
record with every field unchanged — no overwriting or recomputation. -/
theorem no_line_items_frame (data : ExtractedInvoiceData)
    (h : data.line_items = []) :
    validate_and_recalculate data = data := by
  simp [validate_and_recalculate, h]

/-- Witness for C10 at a concrete record with no line items. -/
theorem no_line_items_frame_witness :
    ({ subtotal := 7, total_kdv := 3, total_amount := 10 } :
        ExtractedInvoiceData).line_items = [] ∧
    validate_and_recalculate
        { subtotal := 7, total_kdv := 3, total_amount := 10 } =
      { subtotal := 7, total_kdv := 3, total_amount := 10 } :=
  ⟨rfl, no_line_items_frame _ rfl⟩

/-- C8: blank input (empty or whitespace-only) makes `extract_invoice_data`
raise immediately, before the prompts are built, with zero language-model
calls issued. -/
theorem empty_input_rejected (ocr_text : String)
    (llm : Nat → Option ExtractedInvoiceData) (max_retries : Nat)
    (h : isBlank ocr_text = true) :
    extract_invoice_data ocr_text llm max_retries =
      (Except.error ExtractError.emptyInput, 0) := by
  simp [extract_invoice_data, h]

/-- Witness for C8 at a whitespace-only input string. -/
theorem empty_input_rejected_witness :
    isBlank "  \n " = true ∧
    extract_invoice_data "  \n " (fun _ => none) 2 =
      (Except.error ExtractError.emptyInput, 0) :=
  ⟨by decide, empty_input_rejected "  \n " (fun _ => none) 2 (by decide)⟩

/-- C1, evaluated at a failing input: a single line item with
`quantity = 2`, `unit_price = 50` and stated total `90` (off by `10`, far
beyond the `0.01` line tolerance).  The claim says reconciliation overwrites
the stated total with `2 * 50 = 100`; the code instead leaves it at `90`
(the `calculate_kdv` `AttributeError` aborts each iteration first) and, the
accumulated sums having stayed `0`, zeroes the document-level totals. -/
theorem line_total_not_overwritten_eval :
    validate_and_recalculate
        { subtotal := 100, total_kdv := 20, total_amount := 120,
          line_items := [{ description := "A", quantity := 2, unit_price := 50,
                           kdv_rate := 20, total := 90 }] } =
      { subtotal := 0, total_kdv := 0, total_amount := 0,
        line_items := [{ description := "A", quantity := 2, unit_price := 50,
                         kdv_rate := 20, total := 90 }] } ∧
    absQ ((90 : ℚ) - 2 * 50) > 1 / 100 := by
  refine ⟨?_, by norm_num [absQ]⟩
  norm_num [validate_and_recalculate, recalcLine_eq, absQ]

/-- C2, evaluated at a failing input: one consistent line item
(`1 × 100`, stated total `100`, rate `20`) with correct document totals
(`100 / 20 / 120`).  After reconciliation the document totals are zeroed
(the per-item `AttributeError` leaves the recomputed sums at `0`) while the
line total stays `100`, so `subtotal = Σ line_total` fails even at the
document tolerance `1.00`. -/
theorem document_invariant_violated_eval :
    validate_and_recalculate
        { subtotal := 100, total_kdv := 20, total_amount := 120,
          line_items := [{ description := "Yazılım", quantity := 1,
                           unit_price := 100, kdv_rate := 20, total := 100 }] } =
      { subtotal := 0, total_kdv := 0, total_amount := 0,
        line_items := [{ description := "Yazılım", quantity := 1,
                         unit_price := 100, kdv_rate := 20, total := 100 }] } ∧
    (([{ description := "Yazılım", quantity := 1, unit_price := 100,
         kdv_rate := 20, total := 100 }] : List InvoiceLineItem).map
        (fun i => i.total)).sum = 100 ∧
    absQ ((0 : ℚ) - 100) > 1 := by
  refine ⟨?_, by norm_num, by norm_num [absQ]⟩
  norm_num [validate_and_recalculate, recalcLine_eq, absQ]

/-- C3, evaluated at a failing input: a completed invoice with extracted
data, the ledger assigning id `"12345"`.  The endpoint reads
`result.get("parasut_id")` but the client's response dict only carries the
key `"parasut_invoice_id"`, so the export succeeds, sets
`status = exported` and `exported_at`, yet stores `None` into
`parasut_invoice_id`. -/
theorem export_sets_null_ledger_id_eval :
    export_to_parasut
        { status := InvoiceStatus.completed, extracted_data := some {} }
        (Except.ok (some "12345")) 100 =
      Except.ok { status := InvoiceStatus.exported, extracted_data := some {},
                  parasut_invoice_id := none, exported_at := some 100,
                  updated_at := 100 } := by
  simp [export_to_parasut, export_invoice_response, dictGet]

/-- C9, counterexample: an invoice in status `processing` — outside the
claim's `{completed, failed}` set, for which the claim requires rejection —
accepts an `extracted_data` correction: only `exported` is guarded. -/
theorem update_invoice_claim_counterexample :
    ({ status := InvoiceStatus.processing } : Invoice).status =
        InvoiceStatus.processing ∧
    update_invoice { status := InvoiceStatus.processing }
        { notes := some "duzeltildi" } 5 =
      Except.ok { status := InvoiceStatus.processing,
                  extracted_data := some { notes := some "duzeltildi" },
                  is_manually_corrected := true, updated_at := 5 } := by
  refine ⟨rfl, ?_⟩
  simp [update_invoice, truthyQ, dictUpdate]

/-- C9, amended: `update_invoice` rejects an `extracted_data` correction iff
the invoice's status is `exported` (leaving it unchanged), with one further
exception at any non-exported status: a correction carrying both a truthy
`subtotal` and a truthy `kdv_rate` fails with an internal error (the code
calls the undefined method `calculate_kdv`) and the transaction is rolled
back; every other correction is accepted — also at `uploaded` and
`processing` — merging the patch and setting the manual-correction flag. -/
theorem update_invoice_amended (inv : Invoice) (extracted : ExtractedPatch)
    (now : Nat) :
    (inv.status = InvoiceStatus.exported →
      update_invoice inv extracted now =
        Except.error UpdateError.exportedLocked) ∧
    (inv.status ≠ InvoiceStatus.exported →
      (truthyQ extracted.subtotal && truthyQ extracted.kdv_rate) = true →
      update_invoice inv extracted now =
        Except.error UpdateError.internalError) ∧
    (inv.status ≠ InvoiceStatus.exported →
      (truthyQ extracted.subtotal && truthyQ extracted.kdv_rate) = false →
      update_invoice inv extracted now =
        Except.ok { inv with
          extracted_data :=
            some (dictUpdate (inv.extracted_data.getD {}) extracted),
          is_manually_corrected := true,
          updated_at := now }) := by
  refine ⟨fun h => ?_, fun h ht => ?_, fun h hf => ?_⟩
  · simp [update_invoice, h]
  · simp [update_invoice, h, ht, hasMethod_calculate_kdv]
  · simp [update_invoice, h, hf]

/-- Witness for the amended C9: a completed invoice accepts a notes-only
correction. -/
theorem update_invoice_amended_witness :
    (truthyQ ({ notes := some "n" } : ExtractedPatch).subtotal &&
      truthyQ ({ notes := some "n" } : ExtractedPatch).kdv_rate) = false ∧
    update_invoice { status := InvoiceStatus.completed } { notes := some "n" } 9 =
      Except.ok { status := InvoiceStatus.completed,
                  extracted_data := some { notes := some "n" },
                  is_manually_corrected := true, updated_at := 9 } := by
  have h := (update_invoice_amended { status := InvoiceStatus.completed }
      { notes := some "n" } 9).2.2 (by decide) (by decide)
  refine ⟨by decide, ?_⟩
  rw [h]
  simp [dictUpdate]

/-- C5: for non-negative `subtotal` and `rate`, `calculate` returns a valid
result whose tax is `subtotal * rate / 100` rounded half-up to 2 decimal
places and whose total is `subtotal + tax`. -/
theorem calculate_forward_spec (subtotal rate : ℚ) (hs : 0 ≤ subtotal)
    (_hr : 0 ≤ rate) :
    (calculate subtotal rate).is_valid = true ∧
    (calculate subtotal rate).kdv_amount = roundHalfUp2 (subtotal * rate / 100) ∧
    (calculate subtotal rate).total =
      subtotal + roundHalfUp2 (subtotal * rate / 100) := by
  simp [calculate, not_lt.mpr hs]

/-- Witness for C5 at the spec's example: `calculate(10000, 20)` yields
tax `2000.00` and total `12000.00`. -/
theorem calculate_forward_spec_witness :
    ((0 : ℚ) ≤ 10000 ∧ (0 : ℚ) ≤ 20) ∧
    ((calculate 10000 20).is_valid = true ∧
      (calculate 10000 20).kdv_amount = roundHalfUp2 (10000 * 20 / 100) ∧
      (calculate 10000 20).total = 10000 + roundHalfUp2 (10000 * 20 / 100)) ∧
    (calculate 10000 20).kdv_amount = 2000 ∧
    (calculate 10000 20).total = 12000 := by
  refine ⟨⟨by norm_num, by norm_num⟩,
    calculate_forward_spec 10000 20 (by norm_num) (by norm_num), ?_, ?_⟩
  · norm_num [calculate, roundHalfUp2]
  · norm_num [calculate, roundHalfUp2]

/-- A provided rate is used as given (`rate = Decimal(str(rate))`). -/
lemma effective_rate_some (s k r : ℚ) : effective_rate s k (some r) = r := rfl

/-- The rate `validate` settles on is non-negative whenever a provided rate
is non-negative: an inferred rate is a schedule entry (or the default 20). -/
lemma effective_rate_nonneg (s k : ℚ) (rate? : Option ℚ)
    (hr : ∀ r, rate? = some r → 0 ≤ r) :
    0 ≤ effective_rate s k rate? := by
  cases rate? with
  | some r => exact hr r rfl
  | none =>
      unfold effective_rate
      split_ifs with h
      · have hm := find_closest_mem (roundHalfUp2 (k / s * 100))
        rw [get_valid_rates_eq] at hm
        simp only [List.mem_cons, List.not_mem_nil, or_false] at hm
        rcases hm with h1 | h1 | h1 <;> rw [h1] <;> norm_num
      · norm_num

/-- With non-negative inputs, a stated-total discrepancy beyond `TOLERANCE`
makes `validate` return invalid. -/
lemma validate_total_mismatch (s k t : ℚ) (rate? : Option ℚ)
    (hs : 0 ≤ s) (hk : 0 ≤ k) (ht : 0 ≤ t)
    (h : TOLERANCE < absQ (s + k - t)) :
    (validate s k t rate?).is_valid = false := by
  have hneg : ¬ (s < 0 ∨ k < 0 ∨ t < 0) := by push_neg; exact ⟨hs, hk, ht⟩
  have habs : absQ (t - (s + k)) = absQ (s + k - t) := by
    rw [absQ_eq_abs, absQ_eq_abs, abs_sub_comm]
  simp only [validate]
  rw [if_neg hneg]
  split_ifs with hc
  · exact absurd (habs ▸ hc.1) (not_le.mpr h)
  · rfl

/-- With non-negative inputs and a non-negative (or omitted) rate, the
`suggested_values` a failed `validate` returns themselves pass `validate`. -/
lemma validate_suggested_valid (s k t : ℚ) (rate? : Option ℚ)
    (hs : 0 ≤ s) (hk : 0 ≤ k) (ht : 0 ≤ t)
    (hr : ∀ r, rate? = some r → 0 ≤ r) (sv : SuggestedValues)
    (hsv : (validate s k t rate?).suggested_values = some sv) :
    (validate sv.subtotal sv.kdv_amount sv.total (some sv.kdv_rate)).is_valid =
      true := by
  have hneg : ¬ (s < 0 ∨ k < 0 ∨ t < 0) := by push_neg; exact ⟨hs, hk, ht⟩
  have hrate : 0 ≤ effective_rate s k rate? := effective_rate_nonneg s k rate? hr
  simp only [validate] at hsv
  rw [if_neg hneg] at hsv
  split_ifs at hsv with hc
  simp only [Option.some.injEq] at hsv
  subst hsv
  have hek : 0 ≤ roundHalfUp2 (s * effective_rate s k rate? / 100) :=
    roundHalfUp2_nonneg (by positivity)
  have hneg2 : ¬ (s < 0 ∨ roundHalfUp2 (s * effective_rate s k rate? / 100) < 0 ∨
      s + roundHalfUp2 (s * effective_rate s k rate? / 100) < 0) := by
    push_neg
    exact ⟨hs, hek, add_nonneg hs hek⟩
  simp only [validate, effective_rate_some]
  rw [if_neg hneg2]
  split_ifs with hc2
  · rfl
  · exact absurd ⟨by simp [absQ, TOLERANCE], by simp [absQ, TOLERANCE],
      by simp [absQ, TOLERANCE]⟩ hc2

/-- The spec's worked example: `validate(10000, 1999, 12000)` is invalid and
suggests tax `2000.00` alongside total `12000`, subtotal `10000`, rate 20. -/
lemma validate_example_eval :
    (validate 10000 1999 12000 none).is_valid = false ∧
    (validate 10000 1999 12000 none).suggested_values =
      some { kdv_amount := 2000, total := 12000, subtotal := 10000,
             kdv_rate := 20 } := by
  constructor <;>
    norm_num [validate, effective_rate, find_closest_valid_rate,
      get_valid_rates, KDV_RATES, closestLoop, absQ, roundHalfUp2, TOLERANCE]

/-- C4: with non-negative amounts (and any provided rate non-negative),
a triple violating `subtotal + kdv_amount = total` beyond `0.01` is flagged
invalid; the `suggested_values` of any failed `validate` themselves
re-validate as valid; and `validate(10000, 1999, 12000)` is invalid with
suggested tax `2000.00`. -/
theorem validate_spec (s k t : ℚ) (rate? : Option ℚ)
    (hs : 0 ≤ s) (hk : 0 ≤ k) (ht : 0 ≤ t)
    (hr : ∀ r, rate? = some r → 0 ≤ r) :
    (TOLERANCE < absQ (s + k - t) → (validate s k t rate?).is_valid = false) ∧
    (∀ sv, (validate s k t rate?).suggested_values = some sv →
      (validate sv.subtotal sv.kdv_amount sv.total (some sv.kdv_rate)).is_valid =
        true) ∧
    ((validate 10000 1999 12000 none).is_valid = false ∧
      (validate 10000 1999 12000 none).suggested_values =
        some { kdv_amount := 2000, total := 12000, subtotal := 10000,
               kdv_rate := 20 }) :=
  ⟨fun h => validate_total_mismatch s k t rate? hs hk ht h,
   fun sv hsv => validate_suggested_valid s k t rate? hs hk ht hr sv hsv,
   validate_example_eval⟩

/-- Witness for C4 at the spec's example triple. -/
theorem validate_spec_witness :
    ((0 : ℚ) ≤ 10000 ∧ (0 : ℚ) ≤ 1999 ∧ (0 : ℚ) ≤ 12000 ∧
      TOLERANCE < absQ ((10000 : ℚ) + 1999 - 12000)) ∧
    (validate 10000 1999 12000 none).is_valid = false := by
  have h := validate_spec 10000 1999 12000 none (by norm_num) (by norm_num)
    (by norm_num) (fun r hr => by cases hr)
  exact ⟨⟨by norm_num, by norm_num, by norm_num,
    by norm_num [TOLERANCE, absQ]⟩, h.1 (by norm_num [TOLERANCE, absQ])⟩

/-- C6: for non-negative `S` with at most 2 decimal places and a schedule
rate `R`, feeding `calculate(S, R).total` back through
`calculate_from_total` recovers the subtotal within `0.01`. -/
theorem roundtrip_spec (S R : ℚ) (hS : 0 ≤ S)
    (_hdec : ∃ n : ℤ, S = (n : ℚ) / 100) (hR : R ∈ get_valid_rates) :
    |(calculate_from_total (calculate S R).total R).subtotal - S| ≤ 1 / 100 := by
  have hR0 : 0 ≤ R := by
    rw [get_valid_rates_eq] at hR
    simp only [List.mem_cons, List.not_mem_nil, or_false] at hR
    rcases hR with rfl | rfl | rfl <;> norm_num
  have hK : 0 ≤ roundHalfUp2 (S * R / 100) :=
    roundHalfUp2_nonneg (by positivity)
  have hcalc : (calculate S R).total = S + roundHalfUp2 (S * R / 100) := by
    simp [calculate, not_lt.mpr hS]
  set K := roundHalfUp2 (S * R / 100) with hKdef
  have hT0 : 0 ≤ S + K := add_nonneg hS hK
  have hback : (calculate_from_total (S + K) R).subtotal =
      roundHalfUp2 ((S + K) / (1 + R / 100)) := by
    simp [calculate_from_total, not_lt.mpr hT0]
  rw [hcalc, hback]
  set d : ℚ := 1 + R / 100 with hd
  have hd1 : 1 ≤ d := by
    rw [hd]
    have := div_nonneg hR0 (by norm_num : (0 : ℚ) ≤ 100)
    linarith
  have hd0 : 0 < d := lt_of_lt_of_le one_pos hd1
  have h1 : |roundHalfUp2 ((S + K) / d) - (S + K) / d| ≤ 1 / 200 :=
    abs_roundHalfUp2_sub_le _
  have h2 : |K - S * R / 100| ≤ 1 / 200 := by
    rw [hKdef]
    exact abs_roundHalfUp2_sub_le (S * R / 100)
  have h3 : (S + K) / d - S = (K - S * R / 100) / d := by
    rw [hd]
    have hne : (1 + R / 100 : ℚ) ≠ 0 := by positivity
    field_simp
    ring
  have h4 : |(S + K) / d - S| ≤ 1 / 200 := by
    rw [h3, abs_div, abs_of_pos hd0]
    have h5 := div_le_self (abs_nonneg (K - S * R / 100)) hd1
    linarith
  calc |roundHalfUp2 ((S + K) / d) - S|
      ≤ |roundHalfUp2 ((S + K) / d) - (S + K) / d| + |(S + K) / d - S| :=
        abs_sub_le _ _ _
    _ ≤ 1 / 200 + 1 / 200 := add_le_add h1 h4
    _ = 1 / 100 := by norm_num

/-- Witness for C6 at `S = 123.45`, `R = 10`. -/
theorem roundtrip_spec_witness :
    ((0 : ℚ) ≤ 12345 / 100 ∧ (10 : ℚ) ∈ get_valid_rates) ∧
    |(calculate_from_total (calculate (12345 / 100) 10).total 10).subtotal -
        12345 / 100| ≤ 1 / 100 :=
  ⟨⟨by norm_num, by decide⟩,
   roundtrip_spec (12345 / 100) 10 (by norm_num) ⟨12345, by norm_num⟩
     (by decide)⟩

end FaturaTarayici
